import Mathlib

/-!
Shallow embedding of the netcupscp-exporter metric collection layer.

Two variants exist in the repository:
* `Metrics` embeds `src/metrics/metrics.go` (the newer REST-API collector);
* `PkgMetrics` embeds `src/pkg/metrics/metrics.go` (the older SOAP collector).

Emission of a metric on the prometheus channel (`ch <- prometheus.MustNewConstMetric ...`)
is modelled as appending a `Sample` to the result list; `Collect` returns the
samples in emission order.  Gauge values are `float64` in Go; every value the
collector computes is integer-valued (MiB counts multiplied by 1024*1024, unix
seconds, 0/1 flags), so values are modelled as `Int`.
-/

/-- Metric identifiers: one constructor per `prometheus.Desc` field of the two
`ScpCollector` structs (src/metrics/metrics.go lines 23-51 and
src/pkg/metrics/metrics.go lines 28-41). -/
inductive MetricId where
  | cpuCores | memory | monthlyTrafficIn | monthlyTrafficOut | monthlyTrafficTotal
  | serverStartTime | ipInfo | ifaceThrottled | serverStatus | rescueActive
  | diskCapacity | diskUsed | diskOptimization | snapshotCount | configChanged
  | interfaceSpeed | cpuMaxCount | memoryMax | disksAvailableSpace | autostartEnabled
  | uefiEnabled | latestQemu | disabled | snapshotAllowed | maintenanceStart
  | maintenanceFinish | taskInfo | tasksPending | apiUp | rebootRecommended
  deriving DecidableEq, Repr

/-- One emitted metric sample: which metric, its gauge value, and the label
values in the order they are passed to `prometheus.MustNewConstMetric`. -/
structure Sample where
  metric : MetricId
  value : Int
  labels : List String
  deriving DecidableEq, Repr

/-- A `prometheus.Desc`: metric name, help text, label names (the fourth
`NewDesc` argument, const labels, is always nil in this repository). -/
structure Desc where
  name : String
  help : String
  labelNames : List String
  deriving DecidableEq, Repr

/-- Samples of the given metric, in emission order. -/
def samplesFor (m : MetricId) (l : List Sample) : List Sample :=
  l.filter (fun s => decide (s.metric = m))

/-- The `ip` label of an `interface_throttled` sample (label position 3 in
the descriptor's label list). -/
def ipLabel (s : Sample) : String := s.labels.getD 3 ""

namespace Metrics

/-- scpclient constant `TaskStatePENDING` (generated REST client). -/
def TaskStatePENDING : String := "PENDING"

/-- scpclient constant `TaskStateRUNNING` (generated REST client). -/
def TaskStateRUNNING : String := "RUNNING"

/-- scpclient constant `RUNNING` (server live state, generated REST client). -/
def RUNNING : String := "RUNNING"

/-- scpclient constant `NO` (required-storage-optimization enum, generated REST client). -/
def NO : String := "NO"

/-- scpclient `Interface` as used by Collect (src/metrics/metrics.go lines 351-427):
every field is optional in the wire format.  The Go field `Ipv6NetworkPrefixes`
is named `ipv6NetworkPfxs` here. -/
structure Iface where
  trafficThrottled : Option Bool
  mac : Option String
  driver : Option String
  speedInMBits : Option Int
  rxMonthlyInMiB : Option Int
  txMonthlyInMiB : Option Int
  ipv4Addresses : Option (List String)
  ipv6LinkLocalAddresses : Option (List String)
  ipv6NetworkPfxs : Option (List String)
  deriving DecidableEq, Repr

/-- scpclient `Disk` as used by Collect (src/metrics/metrics.go lines 431-459). -/
structure Disk where
  dev : Option String
  driver : Option String
  capacityInMiB : Option Int
  allocationInMiB : Option Int
  deriving DecidableEq, Repr

/-- scpclient `Site`: `City` is a plain (non-pointer) string field. -/
structure Site where
  city : String
  deriving DecidableEq, Repr

/-- scpclient IPv4 address entry with optional field `Ip`. -/
structure IPv4Addr where
  ip : Option String
  deriving DecidableEq, Repr

/-- scpclient IPv6 address entry; the Go field `NetworkPrefix` is `netPfx` here. -/
structure IPv6Addr where
  netPfx : Option String
  deriving DecidableEq, Repr

/-- scpclient `ServerLiveInfo` as used by Collect (src/metrics/metrics.go lines 305-461). -/
structure ServerLiveInfo where
  cpuCount : Option Int
  currentServerMemoryInMiB : Option Int
  maxServerMemoryInMiB : Option Int
  autostart : Option Bool
  uefi : Option Bool
  latestQemu : Option Bool
  configChanged : Option Bool
  state : Option String
  uptimeInSeconds : Option Int
  interfaces : Option (List Iface)
  disks : Option (List Disk)
  requiredStorageOptimization : Option String
  deriving DecidableEq, Repr

/-- scpclient server-detail payload (`infoResp.JSON200`) as used by Collect
(src/metrics/metrics.go lines 274-484). -/
structure ServerDetail where
  disabled : Option Bool
  maxCpuCount : Option Int
  disksAvailableSpaceInMiB : Option Int
  snapshotAllowed : Option Bool
  snapshotCount : Option Int
  serverLiveInfo : Option ServerLiveInfo
  architecture : Option String
  site : Option Site
  rescueSystemActive : Option Bool
  ipv4Addresses : Option (List IPv4Addr)
  ipv6Addresses : Option (List IPv6Addr)
  deriving DecidableEq, Repr

/-- One entry of the server listing (src/metrics/metrics.go lines 252-261).
The Go field `Id` is a pointer that Collect dereferences unconditionally
(lines 253 and 263); it is modelled as a plain value. -/
structure ServerItem where
  id : Int
  name : Option String
  nickname : Option String
  deriving DecidableEq, Repr

/-- scpclient `Task` as used by Collect (src/metrics/metrics.go lines 227-244). -/
structure Task where
  state : Option String
  uuid : Option String
  name : Option String
  deriving DecidableEq, Repr

/-- Maintenance payload (src/metrics/metrics.go lines 201-208); the two
`*time.Time` fields are modelled by their unix-second values. -/
structure Maintenance where
  startAt : Option Int
  finishAt : Option Int
  deriving DecidableEq, Repr

/-- Result of one generated-client call: a transport error (`err != nil`), or a
response whose `JSON200` payload may be nil. -/
inductive CallResult (α : Type) where
  | transportError
  | response (json200 : Option α)
  deriving DecidableEq, Repr

/-- The wall clock read once at src/metrics/metrics.go line 248:
`now := time.Now()` together with the derived `now.Month()` and `now.Year()`. -/
structure TimeInfo where
  unix : Int
  month : Nat
  year : Int
  deriving DecidableEq, Repr

/-- The API client collaborator, modelled by the outcome of each call Collect
makes.  `ping` is `none` on transport error, otherwise the HTTP status code. -/
structure Client where
  ping : Option Nat
  maintenance : CallResult Maintenance
  servers : CallResult (List ServerItem)
  tasks : CallResult (List Task)
  serverDetail : Int → CallResult ServerDetail

/-- Go pattern `var x float64; if *p { x = 1 }`. -/
def boolToVal (b : Bool) : Int := if b then 1 else 0

/-- Go pattern `if p != nil { ch <- metric(*p) }`: emit one sample when the
optional field is present, nothing otherwise. -/
def optSample {α : Type} (o : Option α) (f : α → Sample) : List Sample :=
  match o with
  | none => []
  | some x => [f x]

/-- Go pattern `if xs != nil { for _, x := range *xs { ...emit some samples... } }`. -/
def optLoop {α : Type} (o : Option (List α)) (g : α → List Sample) : List Sample :=
  match o with
  | none => []
  | some xs => xs.flatMap g

/-- Go pattern `if xs != nil { for _, x := range *xs { ch <- metric(x) } }`. -/
def optMapLoop {α : Type} (o : Option (List α)) (g : α → Sample) : List Sample :=
  match o with
  | none => []
  | some xs => xs.map g

/-- Filter on an optional value (used only to state `samplesFor_optSample`). -/
def optFilter {α : Type} (p : α → Bool) : Option α → Option α
  | none => none
  | some x => if p x then some x else none

/-- Body of the per-interface loop at src/metrics/metrics.go lines 392-426
(interface speed, then one `interface_throttled` sample per listed address). -/
def ifaceSamples (v : String) (iface : Iface) : List Sample :=
  let throttled : Int := if iface.trafficThrottled.getD false then 1 else 0
  let mac := iface.mac.getD ""
  let driver := iface.driver.getD ""
  optSample iface.speedInMBits (fun s => ⟨.interfaceSpeed, s, [v, mac, driver]⟩)
  ++ optMapLoop iface.ipv4Addresses
      (fun ip => ⟨.ifaceThrottled, throttled, [v, driver, "", ip, "ipv4", mac, ""]⟩)
  ++ optMapLoop iface.ipv6LinkLocalAddresses
      (fun ip => ⟨.ifaceThrottled, throttled, [v, driver, "", ip, "ipv6", mac, ""]⟩)
  ++ optMapLoop iface.ipv6NetworkPfxs
      (fun ip => ⟨.ifaceThrottled, throttled, [v, driver, "", ip, "ipv6", mac, ""]⟩)

/-- Body of the per-disk loop at src/metrics/metrics.go lines 431-459:
an absent `CapacityInMiB`/`AllocationInMiB` leaves the pre-initialised 0 in
place and the samples are emitted unconditionally; the optimization flag and
message come from the parent live-info's `RequiredStorageOptimization`. -/
def diskSamples (v : String) (li : ServerLiveInfo) (disk : Disk) : List Sample :=
  let dev := disk.dev.getD ""
  let driver := disk.driver.getD ""
  let capacity : Int := match disk.capacityInMiB with
    | some c => c * 1024 * 1024
    | none => 0
  let allocation : Int := match disk.allocationInMiB with
    | some a => a * 1024 * 1024
    | none => 0
  let om : Int × String := match li.requiredStorageOptimization with
    | some s => if s = NO then (0, "") else (1, s)
    | none => (0, "")
  [⟨.diskCapacity, capacity, [v, driver, dev]⟩,
   ⟨.diskUsed, allocation, [v, driver, dev]⟩,
   ⟨.diskOptimization, om.1, [v, driver, dev, om.2]⟩]

/-- One iteration of the traffic accumulation loop at src/metrics/metrics.go
lines 352-359: add the RX/TX monthly MiB counter (when present) times
1024*1024 to the running `totalIn`/`totalOut`. -/
def trafficStep (acc : Int × Int) (iface : Iface) : Int × Int :=
  ((match iface.rxMonthlyInMiB with
    | some x => acc.1 + x * 1024 * 1024
    | none => acc.1),
   (match iface.txMonthlyInMiB with
    | some x => acc.2 + x * 1024 * 1024
    | none => acc.2))

/-- The traffic accumulation loop at src/metrics/metrics.go lines 350-360:
`totalIn`/`totalOut` start at 0. -/
def trafficTotals (ifaces : List Iface) : Int × Int :=
  ifaces.foldl trafficStep (0, 0)

/-- The `totalIn`/`totalOut` pair of a server: 0 when the interface list is
absent (the guard at src/metrics/metrics.go line 351), the accumulated totals
otherwise. -/
def serverTraffic (li : ServerLiveInfo) : Int × Int :=
  match li.interfaces with
  | none => (0, 0)
  | some ifs => trafficTotals ifs

/-- Samples emitted inside the `if liveInfo != nil` block
(src/metrics/metrics.go lines 305-461), in emission order. -/
def liveSamples (month year : String) (nowUnix : Int) (v nick : String)
    (d : ServerDetail) (li : ServerLiveInfo) : List Sample :=
  let status := li.state.getD ""
  let online : Int := match li.state with
    | some st => if st = RUNNING then 1 else 0
    | none => 0
  let arch := d.architecture.getD ""
  let city := match d.site with
    | some st => st.city
    | none => ""
  let t := serverTraffic li
  optSample li.cpuCount (fun c => ⟨.cpuCores, c, [v]⟩)
  ++ optSample li.currentServerMemoryInMiB (fun m => ⟨.memory, m * 1024 * 1024, [v]⟩)
  ++ optSample li.maxServerMemoryInMiB (fun m => ⟨.memoryMax, m * 1024 * 1024, [v]⟩)
  ++ optSample li.autostart (fun b => ⟨.autostartEnabled, boolToVal b, [v]⟩)
  ++ optSample li.uefi (fun b => ⟨.uefiEnabled, boolToVal b, [v]⟩)
  ++ optSample li.latestQemu (fun b => ⟨.latestQemu, boolToVal b, [v]⟩)
  ++ optSample li.configChanged (fun b => ⟨.configChanged, boolToVal b, [v]⟩)
  ++ [⟨.monthlyTrafficIn, t.1, [v, month, year]⟩,
      ⟨.monthlyTrafficOut, t.2, [v, month, year]⟩,
      ⟨.monthlyTrafficTotal, t.1 + t.2, [v, month, year]⟩]
  ++ [⟨.serverStatus, online, [v, status, nick, arch, city]⟩]
  ++ optSample li.uptimeInSeconds (fun u => ⟨.serverStartTime, nowUnix - u, [v]⟩)
  ++ optLoop li.interfaces (ifaceSamples v)
  ++ optLoop li.disks (diskSamples v li)

/-- Samples emitted for one server whose detail fetch succeeded: the body of
the per-server loop, src/metrics/metrics.go lines 274-484, in emission order. -/
def serverSamples (month year : String) (nowUnix : Int) (v nick : String)
    (d : ServerDetail) : List Sample :=
  optSample d.disabled (fun b => ⟨.disabled, boolToVal b, [v]⟩)
  ++ optSample d.maxCpuCount (fun c => ⟨.cpuMaxCount, c, [v]⟩)
  ++ optSample d.disksAvailableSpaceInMiB (fun x => ⟨.disksAvailableSpace, x * 1024 * 1024, [v]⟩)
  ++ optSample d.snapshotAllowed (fun b => ⟨.snapshotAllowed, boolToVal b, [v]⟩)
  ++ optSample d.snapshotCount (fun c => ⟨.snapshotCount, c, [v]⟩)
  ++ (match d.serverLiveInfo with
      | none => []
      | some li => liveSamples month year nowUnix v nick d li)
  ++ [⟨.rescueActive, boolToVal (d.rescueSystemActive.getD false), [v, ""]⟩]
  ++ optLoop d.ipv4Addresses (fun a => optSample a.ip (fun ip => ⟨.ipInfo, 1, [v, ip]⟩))
  ++ optLoop d.ipv6Addresses (fun a => optSample a.netPfx (fun p => ⟨.ipInfo, 1, [v, p]⟩))

/-- One iteration of the server loop (src/metrics/metrics.go lines 252-272):
a transport error or missing `JSON200` logs and `continue`s, contributing no
samples; otherwise the full per-server sample set is emitted. -/
def serverBlock (c : Client) (now : TimeInfo) (s : ServerItem) : List Sample :=
  match c.serverDetail s.id with
  | .transportError => []
  | .response none => []
  | .response (some d) =>
      serverSamples (toString now.month) (toString now.year) now.unix
        (s.name.getD "") (s.nickname.getD "") d

/-- The `api_up` probe (src/metrics/metrics.go lines 190-195): 1 exactly when
the call returned no error and HTTP status 200. -/
def pingSamples (c : Client) : List Sample :=
  [⟨.apiUp, (match c.ping with
             | some code => if code = 200 then 1 else 0
             | none => 0), []⟩]

/-- Maintenance samples (src/metrics/metrics.go lines 198-208). -/
def maintenanceSamples (c : Client) : List Sample :=
  match c.maintenance with
  | .transportError => []
  | .response none => []
  | .response (some m) =>
      optSample m.startAt (fun t => ⟨.maintenanceStart, t, []⟩)
      ++ optSample m.finishAt (fun t => ⟨.maintenanceFinish, t, []⟩)

/-- Task samples (src/metrics/metrics.go lines 222-246). -/
def taskSamples (c : Client) : List Sample :=
  match c.tasks with
  | .transportError => []
  | .response none => []
  | .response (some ts) =>
      ts.map (fun t => ⟨.taskInfo, 1, [t.uuid.getD "", t.name.getD "", t.state.getD ""]⟩)
      ++ [⟨.tasksPending,
           Int.ofNat (ts.countP (fun t =>
             decide (t.state = some TaskStatePENDING) || decide (t.state = some TaskStateRUNNING))),
           []⟩]

/-- Collect for the REST variant (src/metrics/metrics.go lines 186-486):
ping, maintenance, then the server listing; a listing transport error or
missing `JSON200` returns immediately, otherwise tasks and the per-server
loop follow. -/
def Collect (c : Client) (now : TimeInfo) : List Sample :=
  pingSamples c ++ maintenanceSamples c ++
  (match c.servers with
   | .transportError => []
   | .response none => []
   | .response (some l) => taskSamples c ++ l.flatMap (serverBlock c now))

/-- The `ScpCollector` struct (src/metrics/metrics.go lines 20-52): the client
plus one `prometheus.Desc` per metric. -/
structure ScpCollector where
  client : Client
  cpuCores : Desc
  memory : Desc
  monthlyTrafficIn : Desc
  monthlyTrafficOut : Desc
  monthlyTrafficTotal : Desc
  serverStartTime : Desc
  ipInfo : Desc
  ifaceThrottled : Desc
  serverStatus : Desc
  rescueActive : Desc
  diskCapacity : Desc
  diskUsed : Desc
  diskOptimization : Desc
  snapshotCount : Desc
  configChanged : Desc
  interfaceSpeed : Desc
  cpuMaxCount : Desc
  memoryMax : Desc
  disksAvailableSpace : Desc
  autostartEnabled : Desc
  uefiEnabled : Desc
  latestQemu : Desc
  disabled : Desc
  snapshotAllowed : Desc
  maintenanceStart : Desc
  maintenanceFinish : Desc
  taskInfo : Desc
  tasksPending : Desc
  apiUp : Desc

/-- `NewScpCollector` (src/metrics/metrics.go lines 55-150): builds the fixed
descriptor set, prefix `scp_`. -/
def NewScpCollector (client : Client) : ScpCollector :=
  { client := client
    cpuCores := ⟨"scp_cpu_cores", "Number of CPU cores", ["vserver"]⟩
    memory := ⟨"scp_memory_bytes", "Amount of Memory in Bytes", ["vserver"]⟩
    monthlyTrafficIn := ⟨"scp_monthlytraffic_in_bytes",
      "Monthly traffic incoming in Bytes (only gigabyte-level resolution)",
      ["vserver", "month", "year"]⟩
    monthlyTrafficOut := ⟨"scp_monthlytraffic_out_bytes",
      "Monthly traffic outgoing in Bytes (only gigabyte-level resolution)",
      ["vserver", "month", "year"]⟩
    monthlyTrafficTotal := ⟨"scp_monthlytraffic_total_bytes",
      "Total monthly traffic in Bytes (only gigabyte-level resolution)",
      ["vserver", "month", "year"]⟩
    serverStartTime := ⟨"scp_server_start_time_seconds",
      "Start time of the vserver in seconds (only minute-level resolution)", ["vserver"]⟩
    ipInfo := ⟨"scp_ip_info", "IPs assigned to this server", ["vserver", "ip"]⟩
    ifaceThrottled := ⟨"scp_interface_throttled",
      "Interface's traffic is throttled (1) or not (0)",
      ["vserver", "driver", "id", "ip", "ip_type", "mac", "throttle_message"]⟩
    serverStatus := ⟨"scp_server_status", "Online (1) / Offline (0) status",
      ["vserver", "status", "nickname", "architecture", "site_city"]⟩
    rescueActive := ⟨"scp_rescue_active", "Rescue system active (1) / inactive (0)",
      ["vserver", "message"]⟩
    diskCapacity := ⟨"scp_disk_capacity_bytes", "Available storage space in Bytes",
      ["vserver", "driver", "name"]⟩
    diskUsed := ⟨"scp_disk_used_bytes", "Used storage space in Bytes",
      ["vserver", "driver", "name"]⟩
    diskOptimization := ⟨"scp_disk_optimization",
      "Optimization recommended (1) / not recommended (0)",
      ["vserver", "driver", "name", "message"]⟩
    snapshotCount := ⟨"scp_snapshot_count", "Total number of snapshots", ["vserver"]⟩
    configChanged := ⟨"scp_config_changed", "Pending configuration changes (1) / none (0)",
      ["vserver"]⟩
    interfaceSpeed := ⟨"scp_interface_speed_mbits", "Interface link speed in Mbits/s",
      ["vserver", "mac", "driver"]⟩
    cpuMaxCount := ⟨"scp_cpu_max_count", "Maximum number of CPU cores", ["vserver"]⟩
    memoryMax := ⟨"scp_memory_max_bytes", "Maximum amount of Memory in Bytes", ["vserver"]⟩
    disksAvailableSpace := ⟨"scp_disks_available_space_bytes",
      "Available space for new disks in Bytes", ["vserver"]⟩
    autostartEnabled := ⟨"scp_autostart_enabled", "Autostart enabled (1) / disabled (0)",
      ["vserver"]⟩
    uefiEnabled := ⟨"scp_uefi_enabled", "UEFI enabled (1) / disabled (0)", ["vserver"]⟩
    latestQemu := ⟨"scp_latest_qemu",
      "Server is running latest QEMU version (1) / older (0)", ["vserver"]⟩
    disabled := ⟨"scp_disabled", "Server is disabled (1) / enabled (0)", ["vserver"]⟩
    snapshotAllowed := ⟨"scp_snapshot_allowed",
      "Snapshot creation allowed (1) / disallowed (0)", ["vserver"]⟩
    maintenanceStart := ⟨"scp_maintenance_start_time_seconds",
      "Next maintenance window start time", []⟩
    maintenanceFinish := ⟨"scp_maintenance_finish_time_seconds",
      "Next maintenance window finish time", []⟩
    taskInfo := ⟨"scp_task_info", "Current task information", ["uuid", "name", "state"]⟩
    tasksPending := ⟨"scp_tasks_pending_count", "Number of pending or running tasks", []⟩
    apiUp := ⟨"scp_api_up", "API is reachable (1) / unreachable (0)", []⟩ }

/-- `Describe` (src/metrics/metrics.go lines 153-183): sends the 29 stored
descriptors on the channel, in struct order; it never consults the client. -/
def Describe (collector : ScpCollector) : List Desc :=
  [collector.cpuCores, collector.memory, collector.monthlyTrafficIn,
   collector.monthlyTrafficOut, collector.monthlyTrafficTotal,
   collector.serverStartTime, collector.ipInfo, collector.ifaceThrottled,
   collector.serverStatus, collector.rescueActive, collector.diskCapacity,
   collector.diskUsed, collector.diskOptimization, collector.snapshotCount,
   collector.configChanged, collector.interfaceSpeed, collector.cpuMaxCount,
   collector.memoryMax, collector.disksAvailableSpace, collector.autostartEnabled,
   collector.uefiEnabled, collector.latestQemu, collector.disabled,
   collector.snapshotAllowed, collector.maintenanceStart, collector.maintenanceFinish,
   collector.taskInfo, collector.tasksPending, collector.apiUp]

end Metrics

namespace Str2duration

/-!
Model of the external collaborator `github.com/xhit/go-str2duration/v2`
(`ParseDuration`), the "generic duration parser" of the spec.  The library is
Go's `time.ParseDuration` algorithm extended with the units `d` and `w`.
Durations are int64 nanosecond counts; `none` models a returned error.
-/

/-- Largest int64 value; the parser's overflow checks compare against it. -/
def maxInt64 : Nat := 9223372036854775807

/-- Nanoseconds per unit token (the library's `unitMap`). -/
def unitMap (u : List Char) : Option Nat :=
  if u = "ns".data then some 1
  else if u = "us".data then some 1000
  else if u = "µs".data then some 1000
  else if u = "μs".data then some 1000
  else if u = "ms".data then some 1000000
  else if u = "s".data then some 1000000000
  else if u = "m".data then some 60000000000
  else if u = "h".data then some 3600000000000
  else if u = "d".data then some 86400000000000
  else if u = "w".data then some 604800000000000
  else none

/-- `leadingInt`: consume leading digits into an accumulator, failing on int64
overflow. -/
def leadingInt (x : Nat) : List Char → Option (Nat × List Char)
  | [] => some (x, [])
  | c :: rest =>
    if c.isDigit then
      if x > maxInt64 / 10 then none
      else if x * 10 + (c.toNat - 48) > maxInt64 then none
      else leadingInt (x * 10 + (c.toNat - 48)) rest
    else some (x, c :: rest)

/-- `leadingFraction`: consume digits after the decimal point, tracking the
scale and silently dropping digits once the value would overflow. -/
def leadingFraction (x scale : Nat) (overflow : Bool) :
    List Char → Nat × Nat × List Char
  | [] => (x, scale, [])
  | c :: rest =>
    if c.isDigit then
      if overflow then leadingFraction x scale overflow rest
      else if x > maxInt64 / 10 then leadingFraction x scale true rest
      else if x * 10 + (c.toNat - 48) > maxInt64 then leadingFraction x scale true rest
      else leadingFraction (x * 10 + (c.toNat - 48)) (scale * 10) overflow rest
    else (x, scale, c :: rest)

/-- Character class at which unit-token consumption stops. -/
def isDigitOrDot (c : Char) : Bool := c == '.' || c.isDigit

/-- Component value in nanoseconds: `v *= unit; if f > 0 { v += f * (unit/scale) }`. -/
def stepValue (v f unit scale : Nat) : Nat :=
  if f > 0 then v * unit + f * (unit / scale) else v * unit

/-- Parse one `[0-9]*(\.[0-9]*)?<unit>` component: returns its value in
nanoseconds and the remaining input.  The library computes the fractional
contribution as `int64(float64(f) * (float64(unit)/scale))`; this is modelled
with exact integer arithmetic `f * (unit / scale)`, which agrees whenever
`scale` divides `unit` (in particular on every input without a fractional
part, where `f = 0`). -/
def step (s : List Char) : Option (Nat × List Char) :=
  match s with
  | [] => none
  | c :: _ =>
    if isDigitOrDot c then
      match leadingInt 0 s with
      | none => none
      | some (v, s1) =>
        match (match s1 with
               | '.' :: s1' =>
                   let r := leadingFraction 0 1 false s1'
                   (r.1, r.2.1, r.2.2.length != s1'.length, r.2.2)
               | _ => ((0 : Nat), (1 : Nat), false, s1)) with
        | (f, scale, post, s2) =>
          if (s1.length != s.length) || post then
            if (s2.takeWhile (fun ch => !isDigitOrDot ch)).isEmpty then none
            else
              match unitMap (s2.takeWhile (fun ch => !isDigitOrDot ch)) with
              | none => none
              | some unit =>
                if v > maxInt64 / unit then none
                else
                  if stepValue v f unit scale > maxInt64 then none
                  else some (stepValue v f unit scale,
                             s2.dropWhile (fun ch => !isDigitOrDot ch))
          else none
    else none

/-- The component loop of `ParseDuration` (accumulating `d`, with the int64
overflow check on each addition), fuelled so that it is structurally
recursive and kernel-computable; `step_length` shows every iteration consumes
at least one character, so `s.length + 1` units of fuel (what `parseLoop`
supplies) always reach the genuine result — see `parseLoopF_adequate`. -/
def parseLoopF : Nat → List Char → Nat → Option Nat
  | 0, _, _ => none
  | _ + 1, [], d => some d
  | fuel + 1, c :: cs, d =>
    match step (c :: cs) with
    | none => none
    | some (v, r) =>
        if d + v > maxInt64 then none
        else parseLoopF fuel r (d + v)

/-- The component loop of `ParseDuration` with its fuel fixed. -/
def parseLoop (s : List Char) (d : Nat) : Option Nat :=
  parseLoopF (s.length + 1) s d

/-- `str2duration.ParseDuration`: optional sign, the special case `"0"`, then
the component loop.  Result in nanoseconds; `none` models an error. -/
def ParseDuration (s : String) : Option Int :=
  let cs := s.data
  let sgn : Bool × List Char :=
    match cs with
    | c :: rest =>
        if c = '-' then (true, rest)
        else if c = '+' then (false, rest)
        else (false, cs)
    | [] => (false, cs)
  let neg := sgn.1
  let cs1 := sgn.2
  if cs1 = ['0'] then some 0
  else if cs1 = [] then none
  else
    match parseLoop cs1 0 with
    | none => none
    | some d => some (if neg then -(d : Int) else (d : Int))

end Str2duration

namespace PkgMetrics

/-- Go `strings.Replace(s, pat, rep, 1)`: replace the first occurrence of
`pat` (comparison at each successive start position). -/
def replaceFirst (s pat rep : List Char) : List Char :=
  match s with
  | [] => []
  | c :: rest =>
    if pat.isPrefixOf (c :: rest) then rep ++ (c :: rest).drop pat.length
    else c :: replaceFirst rest pat rep

/-- `parseUptimeString` (src/pkg/metrics/metrics.go lines 225-233): rewrite
the verbose unit words, then hand the result to the duration parser.  Note
that the `" days "`, `" day "`, `" hours "` and `" hour "` patterns require a
trailing space.  Result in nanoseconds (`time.Duration`); `none` is an error. -/
def parseUptimeString (uptime : String) : Option Int :=
  let t1 := replaceFirst uptime.data " days ".data "d".data
  let t2 := replaceFirst t1 " day ".data "d".data
  let t3 := replaceFirst t2 " hours ".data "h".data
  let t4 := replaceFirst t3 " hour ".data "h".data
  let t5 := replaceFirst t4 " minutes".data "m".data
  let t6 := replaceFirst t5 " minute".data "m".data
  Str2duration.ParseDuration (String.mk t6)

/-- gowsdl `VserverCurrentMonth` as used by Collect (src/pkg/metrics/metrics.go
lines 155-157).  The Go field `In` is `monthIn` here (`in` is reserved). -/
structure CurrentMonth where
  monthIn : Int
  out : Int
  total : Int
  month : Int
  year : Int
  deriving DecidableEq, Repr

/-- gowsdl `ServerInterface` (src/pkg/metrics/metrics.go lines 184-202).  The
Go `Ipv4IP`/`Ipv6IP` slices hold string pointers that Collect dereferences
unconditionally; they are modelled as plain string lists. -/
structure ServerInterface where
  trafficThrottled : Bool
  trafficThrottledMessage : String
  driver : String
  id : String
  mac : String
  ipv4IP : List String
  ipv6IP : List String
  deriving DecidableEq, Repr

/-- gowsdl `ServerDisk` (src/pkg/metrics/metrics.go lines 205-215). -/
structure ServerDisk where
  capacity : Int
  used : Int
  driver : String
  name : String
  optimizationRecommended : Bool
  optimizationRecommendedMessage : String
  deriving DecidableEq, Repr

/-- gowsdl `VServerInformation` as used by Collect
(src/pkg/metrics/metrics.go lines 150-221). -/
structure VServerInformation where
  cpuCores : Int
  memory : Int
  currentMonth : CurrentMonth
  status : String
  vServerNickname : String
  rescueEnabled : Bool
  rescueEnabledMessage : String
  rebootRecommended : Bool
  rebootRecommendedMessage : String
  ips : List String
  serverInterfaces : List ServerInterface
  serverDisks : List ServerDisk
  uptime : String
  deriving DecidableEq, Repr

/-- Response envelope of `GetVServers`; the Go `Return_` field is a slice of
vserver-name pointers, each dereferenced unconditionally by Collect. -/
structure GetVServersResponse where
  return_ : List String
  deriving DecidableEq, Repr

/-- Response envelope of `GetVServerInformation`. -/
structure GetVServerInformationResponse where
  return_ : VServerInformation
  deriving DecidableEq, Repr

/-- Modelled from the spec: the `WSEndUser` SOAP client lives in
`pkg/scpclient` (generated by gowsdl), which is not under src/; §6 of the spec
describes it only as "a SOAP client against a fixed WSDL endpoint".  Each
generated call returns either a response or a non-nil error together with a
nil response pointer, so a call outcome is modelled as an `Option`: `none`
stands for "error was returned and the response pointer is nil". -/
structure WSEndUser where
  getVServers : Option GetVServersResponse
  getVServerInformation : String → Option GetVServerInformationResponse

/-- The per-address dedup loop body (src/pkg/metrics/metrics.go lines 190-201):
emit one `interface_throttled` sample per address not already in `seenIPs`,
recording each emitted address.  Returns the samples and the updated set. -/
def emitIPs (v : String) (iface : ServerInterface) (thr : Int) (ipType : String)
    (seen : List String) : List String → List Sample × List String
  | [] => ([], seen)
  | ip :: rest =>
    if ip ∈ seen then emitIPs v iface thr ipType seen rest
    else
      let tail := emitIPs v iface thr ipType (ip :: seen) rest
      (⟨.ifaceThrottled, thr,
        [v, iface.driver, iface.id, ip, ipType, iface.mac, iface.trafficThrottledMessage]⟩
        :: tail.1,
       tail.2)

/-- One iteration of the interface loop (src/pkg/metrics/metrics.go lines
184-202): the `seenIPs` map is created per interface and shared between the
IPv4 and the IPv6 pass. -/
def ifaceThrottledSamples (v : String) (iface : ServerInterface) : List Sample :=
  let thr : Int := if iface.trafficThrottled then 1 else 0
  let pass4 := emitIPs v iface thr "ipv4" [] iface.ipv4IP
  let pass6 := emitIPs v iface thr "ipv6" pass4.2 iface.ipv6IP
  pass4.1 ++ pass6.1

/-- Samples emitted for one vserver: the body of the loop at
src/pkg/metrics/metrics.go lines 137-222, in emission order.  On an uptime
parse failure the error is only logged and the zero `time.Duration` is used,
so the start-time sample is still emitted, valued at the scrape time. -/
def serverSamples (nowUnix : Int) (v : String) (info : VServerInformation) :
    List Sample :=
  let cm := info.currentMonth
  let monthL := toString cm.month
  let yearL := toString cm.year
  [⟨.cpuCores, info.cpuCores, [v]⟩,
   ⟨.memory, info.memory * 1024 * 1024, [v]⟩,
   ⟨.monthlyTrafficIn, cm.monthIn * 1024 * 1024, [v, monthL, yearL]⟩,
   ⟨.monthlyTrafficOut, cm.out * 1024 * 1024, [v, monthL, yearL]⟩,
   ⟨.monthlyTrafficTotal, cm.total * 1024 * 1024, [v, monthL, yearL]⟩,
   ⟨.serverStatus, (if info.status = "online" then 1 else 0),
    [v, info.status, info.vServerNickname]⟩,
   ⟨.rescueActive, (if info.rescueEnabled then 1 else 0), [v, info.rescueEnabledMessage]⟩,
   ⟨.rebootRecommended, (if info.rebootRecommended then 1 else 0),
    [v, info.rebootRecommendedMessage]⟩]
  ++ info.ips.map (fun ip => ⟨.ipInfo, 1, [v, ip]⟩)
  ++ info.serverInterfaces.flatMap (ifaceThrottledSamples v)
  ++ info.serverDisks.flatMap (fun disk =>
      [⟨.diskCapacity, disk.capacity * 1024 * 1024 * 1024, [v, disk.driver, disk.name]⟩,
       ⟨.diskUsed, disk.used * 1024 * 1024 * 1024, [v, disk.driver, disk.name]⟩,
       ⟨.diskOptimization, (if disk.optimizationRecommended then 1 else 0),
        [v, disk.driver, disk.name, disk.optimizationRecommendedMessage]⟩])
  ++ [⟨.serverStartTime,
       nowUnix - ((parseUptimeString info.uptime).getD 0) / 1000000000, [v]⟩]

/-- The vserver loop (src/pkg/metrics/metrics.go lines 137-222).  A detail
call that fails is only logged, after which `infoResponse.Return_` is
dereferenced anyway; the resulting nil-pointer panic is modelled as `none`.
Samples already sent to the channel before a panic are not modelled; the
claims that exercise the panic path place the failing call first. -/
def collectServers (c : WSEndUser) (nowUnix : Int) :
    List String → Option (List Sample)
  | [] => some []
  | v :: rest => do
      let info ← c.getVServerInformation v
      let tail ← collectServers c nowUnix rest
      pure (serverSamples nowUnix v info.return_ ++ tail)

/-- Collect for the SOAP variant (src/pkg/metrics/metrics.go lines 121-223):
a `GetVServers` failure is only logged, after which `genericResponse.Return_`
is dereferenced; with the nil response that accompanies an error this is a
nil-pointer panic, modelled as `none`. -/
def Collect (c : WSEndUser) (nowUnix : Int) : Option (List Sample) := do
  let resp ← c.getVServers
  collectServers c nowUnix resp.return_

/-- The SOAP `ScpCollector` struct (src/pkg/metrics/metrics.go lines 23-42). -/
structure ScpCollector where
  client : WSEndUser
  loginName : String
  password : String
  cpuCores : Desc
  memory : Desc
  monthlyTrafficIn : Desc
  monthlyTrafficOut : Desc
  monthlyTrafficTotal : Desc
  serverStartTime : Desc
  ipInfo : Desc
  ifaceThrottled : Desc
  serverStatus : Desc
  rescueActive : Desc
  rebootRecommended : Desc
  diskCapacity : Desc
  diskUsed : Desc
  diskOptimization : Desc

/-- SOAP `NewScpCollector` (src/pkg/metrics/metrics.go lines 45-101). -/
def NewScpCollector (client : WSEndUser) (loginName password : String) : ScpCollector :=
  { client := client
    loginName := loginName
    password := password
    cpuCores := ⟨"scp_cpu_cores", "Number of CPU cores", ["vserver"]⟩
    memory := ⟨"scp_memory_bytes", "Amount of Memory in Bytes", ["vserver"]⟩
    monthlyTrafficIn := ⟨"scp_monthlytraffic_in_bytes",
      "Monthly traffic incoming in Bytes (only gigabyte-level resolution)",
      ["vserver", "month", "year"]⟩
    monthlyTrafficOut := ⟨"scp_monthlytraffic_out_bytes",
      "Monthly traffic outgoing in Bytes (only gigabyte-level resolution)",
      ["vserver", "month", "year"]⟩
    monthlyTrafficTotal := ⟨"scp_monthlytraffic_total_bytes",
      "Total monthly traffic in Bytes (only gigabyte-level resolution)",
      ["vserver", "month", "year"]⟩
    serverStartTime := ⟨"scp_server_start_time_seconds",
      "Start time of the vserver in seconds (only minute-level resolution)", ["vserver"]⟩
    ipInfo := ⟨"scp_ip_info", "IPs assigned to this server", ["vserver", "ip"]⟩
    ifaceThrottled := ⟨"scp_interface_throttled",
      "Interface's traffic is throttled (1) or not (0)",
      ["vserver", "driver", "id", "ip", "ip_type", "mac", "throttle_message"]⟩
    serverStatus := ⟨"scp_server_status", "Online (1) / Offline (0) status",
      ["vserver", "status", "nickname"]⟩
    rescueActive := ⟨"scp_rescue_active", "Rescue system active (1) / inactive (0)",
      ["vserver", "message"]⟩
    rebootRecommended := ⟨"scp_reboot_recommended",
      "Reboot recommended (1) / not recommended (0)", ["vserver", "message"]⟩
    diskCapacity := ⟨"scp_disk_capacity_bytes", "Available storage space in Bytes",
      ["vserver", "driver", "name"]⟩
    diskUsed := ⟨"scp_disk_used_bytes", "Used storage space in Bytes",
      ["vserver", "driver", "name"]⟩
    diskOptimization := ⟨"scp_disk_optimization",
      "Optimization recommended (1) / not recommended (0)",
      ["vserver", "driver", "name", "message"]⟩ }

/-- SOAP `Describe` (src/pkg/metrics/metrics.go lines 104-118): sends 13
stored descriptors (`rebootRecommended` is, in fact, not among them); never
consults the client. -/
def Describe (collector : ScpCollector) : List Desc :=
  [collector.cpuCores, collector.memory, collector.monthlyTrafficIn,
   collector.monthlyTrafficOut, collector.monthlyTrafficTotal,
   collector.serverStartTime, collector.ipInfo, collector.ifaceThrottled,
   collector.serverStatus, collector.rescueActive, collector.diskCapacity,
   collector.diskUsed, collector.diskOptimization]

end PkgMetrics

/-! Concrete example inputs used by witnesses and counterexamples. -/

/-- A live-info payload with every optional field absent. -/
def noLive : Metrics.ServerLiveInfo :=
  ⟨none, none, none, none, none, none, none, none, none, none, none, none⟩

/-- A server-detail payload with every optional field absent. -/
def noDetail : Metrics.ServerDetail :=
  ⟨none, none, none, none, none, none, none, none, none, none, none⟩

/-- An interface whose IPv4 address list contains the same literal twice. -/
def exIfaceDup : Metrics.Iface :=
  ⟨none, some "aa:bb", some "virtio", none, none, none,
   some ["1.2.3.4", "1.2.3.4"], none, none⟩

/-- Detail payload embedding `exIfaceDup`. -/
def exDetailDup : Metrics.ServerDetail :=
  { noDetail with serverLiveInfo := some { noLive with interfaces := some [exIfaceDup] } }

/-- A SOAP server-information payload whose uptime string does not parse
(`"1 day 1 hour"`: the singular-unit replacements need a trailing space). -/
def exInfoBad : PkgMetrics.VServerInformation where
  cpuCores := 1
  memory := 1024
  currentMonth := ⟨10, 20, 30, 5, 2024⟩
  status := "online"
  vServerNickname := "nick"
  rescueEnabled := false
  rescueEnabledMessage := ""
  rebootRecommended := false
  rebootRecommendedMessage := ""
  ips := []
  serverInterfaces := []
  serverDisks := []
  uptime := "1 day 1 hour"

/-- Detail payload whose six boolean flags are all absent while the parent
structures (the detail payload itself and its live info) are present. -/
def exDetailC2 : Metrics.ServerDetail :=
  { noDetail with serverLiveInfo := some noLive }

/-- Detail payload with a mix of present and absent boolean flags. -/
def exLiMix : Metrics.ServerLiveInfo :=
  { noLive with autostart := some false, uefi := some true }

/-- Detail payload embedding `exLiMix`, with `disabled` present. -/
def exDetailMix : Metrics.ServerDetail :=
  { noDetail with disabled := some true, serverLiveInfo := some exLiMix }

/-- A disk entry whose capacity and allocation fields are both absent. -/
def exDiskNoCap : Metrics.Disk := ⟨some "vda", some "scsi", none, none⟩

/-- Detail payload embedding `exDiskNoCap`. -/
def exDetailC3 : Metrics.ServerDetail :=
  { noDetail with serverLiveInfo := some { noLive with disks := some [exDiskNoCap] } }

/-- The wall clock used by the concrete clients below. -/
def exNow : Metrics.TimeInfo := ⟨1700000000, 5, 2024⟩

/-- A REST client whose every call fails with a transport error. -/
def exClientDown : Metrics.Client :=
  ⟨none, .transportError, .transportError, .transportError, fun _ => .transportError⟩

/-- A SOAP client whose every call fails (error with nil response). -/
def exSoapDown : PkgMetrics.WSEndUser := ⟨none, fun _ => none⟩

/-- A server-detail payload returned for the succeeding servers below. -/
def exItemA : Metrics.ServerItem := ⟨1, some "s1", none⟩

/-- Second listing entry for the C5 clients. -/
def exItemB : Metrics.ServerItem := ⟨2, some "s2", none⟩

/-- A REST client listing two servers whose first detail call fails. -/
def exClientC5 : Metrics.Client :=
  ⟨some 200, .response none, .response (some [exItemA, exItemB]), .response (some []),
   fun i => if i = 1 then .transportError else .response (some noDetail)⟩

/-- SOAP server-information payload with a parseable uptime, used by the C5
counterexample client. -/
def exInfoOk : PkgMetrics.VServerInformation :=
  { exInfoBad with uptime := "5 minutes" }

/-- A SOAP client listing two servers whose first detail call fails. -/
def exSoapPartial : PkgMetrics.WSEndUser :=
  ⟨some ⟨["a", "b"]⟩, fun v => if v = "a" then none else some ⟨exInfoOk⟩⟩

/-- Interface with both counters present (C6 witness input). -/
def exIfaceTraf1 : Metrics.Iface :=
  ⟨none, none, none, none, some 3, some 5, none, none, none⟩

/-- Interface with only the TX counter present (C6 witness input). -/
def exIfaceTraf2 : Metrics.Iface :=
  ⟨none, none, none, none, none, some 7, none, none, none⟩

/-- Detail payload embedding the two traffic interfaces. -/
def exDetailC6 : Metrics.ServerDetail :=
  { noDetail with
    serverLiveInfo := some { noLive with interfaces := some [exIfaceTraf1, exIfaceTraf2] } }

/-- Listing entry for the C10 witness client. -/
def exItemC10 : Metrics.ServerItem := ⟨7, some "srv", none⟩

/-- A REST client with one server whose live info is present but has no
interface list. -/
def exClientC10 : Metrics.Client :=
  ⟨some 200, .response none, .response (some [exItemC10]), .response (some []),
   fun _ => .response (some exDetailC2)⟩

/-! Proof development: helper lemmas, then the claim theorems. -/

namespace Str2duration

theorem leadingInt_length {x : Nat} :
    ∀ {s : List Char} {v : Nat} {r : List Char},
      leadingInt x s = some (v, r) → r.length ≤ s.length := by
  intro s
  induction s generalizing x with
  | nil => intro v r h; simp [leadingInt] at h; simp [h.2]
  | cons c rest ih =>
    intro v r h
    simp only [leadingInt] at h
    split at h
    · split at h
      · exact absurd h (by simp)
      · split at h
        · exact absurd h (by simp)
        · exact Nat.le_succ_of_le (ih h)
    · simp at h
      simp [h.2]

theorem leadingFraction_length {x scale : Nat} {ov : Bool} :
    ∀ {s : List Char}, (leadingFraction x scale ov s).2.2.length ≤ s.length := by
  intro s
  induction s generalizing x scale ov with
  | nil => simp [leadingFraction]
  | cons c rest ih =>
    simp only [leadingFraction]
    split
    · split
      · exact Nat.le_succ_of_le ih
      · split
        · exact Nat.le_succ_of_le ih
        · split
          · exact Nat.le_succ_of_le ih
          · exact Nat.le_succ_of_le ih
    · simp

theorem dropWhile_length_lt {α : Type} {p : α → Bool} {l : List α}
    (h : (l.takeWhile p).isEmpty = false) : (l.dropWhile p).length < l.length := by
  have hsplit := List.takeWhile_append_dropWhile (p := p) (l := l)
  have hlen := congrArg List.length hsplit
  rw [List.length_append] at hlen
  have hpos : 0 < (l.takeWhile p).length := by
    cases htw : l.takeWhile p with
    | nil => rw [htw] at h; simp at h
    | cons a t => simp [htw]
  omega

theorem fracTuple_length (s1 : List Char) :
    (match s1 with
     | '.' :: s1' =>
         let r := leadingFraction 0 1 false s1'
         (r.1, r.2.1, r.2.2.length != s1'.length, r.2.2)
     | _ => ((0 : Nat), (1 : Nat), false, s1)).2.2.2.length ≤ s1.length := by
  split
  · rename_i s1'
    have h1 : (leadingFraction 0 1 false s1').2.2.length ≤ s1'.length :=
      leadingFraction_length
    simpa using Nat.le_succ_of_le h1
  · exact le_refl _

theorem step_length {s : List Char} {v : Nat} {r : List Char}
    (h : step s = some (v, r)) : r.length < s.length := by
  cases s with
  | nil => simp [step] at h
  | cons c cs =>
    rw [step] at h
    split at h
    · split at h
      · exact absurd h (by simp)
      · rename_i v0 s1 hleading
        have hs1 : s1.length ≤ (c :: cs).length := leadingInt_length hleading
        split at h
        rename_i f scale post s2 heq
        have hs2 : s2.length ≤ s1.length := by
          have := fracTuple_length s1
          rw [heq] at this
          exact this
        split at h
        · split at h
          · exact absurd h (by simp)
          · rename_i hne
            split at h
            · exact absurd h (by simp)
            · split at h
              · exact absurd h (by simp)
              · split at h
                · exact absurd h (by simp)
                · have hr : r = s2.dropWhile (fun ch => !isDigitOrDot ch) := by
                    simp at h
                    exact h.2.symm
                  have hlt : (s2.dropWhile (fun ch => !isDigitOrDot ch)).length <
                      s2.length := dropWhile_length_lt (by simpa using hne)
                  rw [hr]
                  omega
        · exact absurd h (by simp)
    · exact absurd h (by simp)

theorem parseLoopF_adequate :
    ∀ fuel : Nat, ∀ s : List Char, ∀ d : Nat, s.length < fuel →
      parseLoopF fuel s d = parseLoop s d := by
  intro fuel
  induction fuel using Nat.strong_induction_on with
  | _ fuel IH =>
    intro s d hlen
    match fuel, s with
    | 0, s => omega
    | f + 1, [] => rfl
    | f + 1, c :: cs =>
      rw [parseLoop]
      simp only [parseLoopF]
      cases hstep : step (c :: cs) with
      | none => rfl
      | some vr =>
        obtain ⟨v, r⟩ := vr
        have hr : r.length < (c :: cs).length := step_length hstep
        simp only []
        split
        · rfl
        · have h1 : parseLoopF f r (d + v) = parseLoop r (d + v) := by
            apply IH f (by omega) r (d + v)
            simp at hr hlen ⊢
            omega
          have h2 : parseLoopF ((c :: cs).length) r (d + v) = parseLoop r (d + v) := by
            apply IH ((c :: cs).length) (by omega) r (d + v)
            exact hr
          rw [h1, h2]

end Str2duration

/-! Toolkit: computation rules for `samplesFor` over the emission combinators. -/

namespace Metrics

@[simp] theorem optSample_none {α : Type} (f : α → Sample) :
    optSample none f = [] := rfl

@[simp] theorem optSample_some {α : Type} (x : α) (f : α → Sample) :
    optSample (some x) f = [f x] := rfl

@[simp] theorem optLoop_none {α : Type} (g : α → List Sample) :
    optLoop none g = [] := rfl

@[simp] theorem optLoop_some {α : Type} (xs : List α) (g : α → List Sample) :
    optLoop (some xs) g = xs.flatMap g := rfl

@[simp] theorem optMapLoop_none {α : Type} (g : α → Sample) :
    optMapLoop none g = [] := rfl

@[simp] theorem optMapLoop_some {α : Type} (xs : List α) (g : α → Sample) :
    optMapLoop (some xs) g = xs.map g := rfl

@[simp] theorem optFilter_const_false {α : Type} (o : Option α) :
    optFilter (fun _ => false) o = none := by cases o <;> rfl

@[simp] theorem optFilter_const_true {α : Type} (o : Option α) :
    optFilter (fun _ => true) o = o := by cases o <;> simp [optFilter]

@[simp] theorem samplesFor_nil (m : MetricId) : samplesFor m [] = [] := rfl

@[simp] theorem samplesFor_append (m : MetricId) (a b : List Sample) :
    samplesFor m (a ++ b) = samplesFor m a ++ samplesFor m b :=
  List.filter_append ..

@[simp] theorem samplesFor_cons (m : MetricId) (s : Sample) (t : List Sample) :
    samplesFor m (s :: t) =
      if s.metric = m then s :: samplesFor m t else samplesFor m t := by
  by_cases h : s.metric = m <;> simp [samplesFor, List.filter_cons, h]

@[simp] theorem samplesFor_optSample {α : Type} (m : MetricId) (o : Option α)
    (f : α → Sample) :
    samplesFor m (optSample o f) =
      optSample (optFilter (fun x => decide ((f x).metric = m)) o) f := by
  cases o with
  | none => rfl
  | some x =>
    by_cases h : (f x).metric = m <;> simp [optSample, optFilter, samplesFor, h]

@[simp] theorem samplesFor_optLoop {α : Type} (m : MetricId) (o : Option (List α))
    (g : α → List Sample) :
    samplesFor m (optLoop o g) = optLoop o (fun a => samplesFor m (g a)) := by
  cases o <;> simp [optLoop, samplesFor, List.filter_flatMap]

@[simp] theorem samplesFor_optMapLoop {α : Type} (m : MetricId) (o : Option (List α))
    (g : α → Sample) :
    samplesFor m (optMapLoop o g) = optLoop o (fun a => samplesFor m [g a]) := by
  cases o with
  | none => rfl
  | some xs =>
    induction xs with
    | nil => simp [optMapLoop, optLoop]
    | cons x t ih =>
      simp_all [optMapLoop, optLoop]
      split <;> simp

@[simp] theorem optLoop_nil_fun {α : Type} (o : Option (List α)) :
    optLoop o (fun _ => ([] : List Sample)) = [] := by
  cases o with
  | none => rfl
  | some xs => simp [optLoop]

theorem samplesFor_map_of_metric {α : Type} (m : MetricId) (g : α → Sample)
    (l : List α) (h : ∀ a, (g a).metric = m) :
    samplesFor m (l.map g) = l.map g := by
  induction l with
  | nil => rfl
  | cons a t ih => simp [h, ih]

theorem optLoop_singleton {α : Type} (o : Option (List α)) (g : α → Sample) :
    optLoop o (fun a => [g a]) = optMapLoop o g := by
  cases o with
  | none => rfl
  | some xs =>
    induction xs with
    | nil => rfl
    | cons x t ih => simp_all [optLoop, optMapLoop]

theorem trafficTotals_foldl (ifs : List Iface) :
    ∀ a b : Int,
      ifs.foldl trafficStep (a, b) =
        (a + (ifs.map (fun i => i.rxMonthlyInMiB.getD 0)).sum * 1024 * 1024,
         b + (ifs.map (fun i => i.txMonthlyInMiB.getD 0)).sum * 1024 * 1024) := by
  induction ifs with
  | nil => intro a b; simp
  | cons i t ih =>
    intro a b
    rw [List.foldl_cons, ih]
    cases hrx : i.rxMonthlyInMiB <;> cases htx : i.txMonthlyInMiB <;>
      simp [trafficStep, hrx, htx, Prod.ext_iff] <;> omega

/-- The accumulated totals are the per-interface counter sums converted to
bytes (absent counters count as 0). -/
theorem trafficTotals_eq (ifs : List Iface) :
    trafficTotals ifs =
      ((ifs.map (fun i => i.rxMonthlyInMiB.getD 0)).sum * 1024 * 1024,
       (ifs.map (fun i => i.txMonthlyInMiB.getD 0)).sum * 1024 * 1024) := by
  rw [trafficTotals, trafficTotals_foldl]
  simp

/-! Characterizations of `samplesFor` over one server's emitted samples,
shared by several claims below. -/

theorem samplesFor_sS_disabled (month year : String) (nowU : Int) (v nick : String)
    (d : ServerDetail) :
    samplesFor .disabled (serverSamples month year nowU v nick d) =
      optSample d.disabled (fun b => ⟨.disabled, boolToVal b, [v]⟩) := by
  cases hli : d.serverLiveInfo <;>
    simp [serverSamples, liveSamples, ifaceSamples, diskSamples, hli]

theorem samplesFor_sS_snapshotAllowed (month year : String) (nowU : Int)
    (v nick : String) (d : ServerDetail) :
    samplesFor .snapshotAllowed (serverSamples month year nowU v nick d) =
      optSample d.snapshotAllowed (fun b => ⟨.snapshotAllowed, boolToVal b, [v]⟩) := by
  cases hli : d.serverLiveInfo <;>
    simp [serverSamples, liveSamples, ifaceSamples, diskSamples, hli]

theorem samplesFor_sS_cpuMaxCount (month year : String) (nowU : Int)
    (v nick : String) (d : ServerDetail) :
    samplesFor .cpuMaxCount (serverSamples month year nowU v nick d) =
      optSample d.maxCpuCount (fun c => ⟨.cpuMaxCount, c, [v]⟩) := by
  cases hli : d.serverLiveInfo <;>
    simp [serverSamples, liveSamples, ifaceSamples, diskSamples, hli]

theorem samplesFor_sS_disksAvailableSpace (month year : String) (nowU : Int)
    (v nick : String) (d : ServerDetail) :
    samplesFor .disksAvailableSpace (serverSamples month year nowU v nick d) =
      optSample d.disksAvailableSpaceInMiB
        (fun x => ⟨.disksAvailableSpace, x * 1024 * 1024, [v]⟩) := by
  cases hli : d.serverLiveInfo <;>
    simp [serverSamples, liveSamples, ifaceSamples, diskSamples, hli]

theorem samplesFor_sS_snapshotCount (month year : String) (nowU : Int)
    (v nick : String) (d : ServerDetail) :
    samplesFor .snapshotCount (serverSamples month year nowU v nick d) =
      optSample d.snapshotCount (fun c => ⟨.snapshotCount, c, [v]⟩) := by
  cases hli : d.serverLiveInfo <;>
    simp [serverSamples, liveSamples, ifaceSamples, diskSamples, hli]

theorem samplesFor_sS_autostart (month year : String) (nowU : Int)
    (v nick : String) (d : ServerDetail) (li : ServerLiveInfo)
    (hli : d.serverLiveInfo = some li) :
    samplesFor .autostartEnabled (serverSamples month year nowU v nick d) =
      optSample li.autostart (fun b => ⟨.autostartEnabled, boolToVal b, [v]⟩) := by
  simp [serverSamples, liveSamples, ifaceSamples, diskSamples, hli]

theorem samplesFor_sS_uefi (month year : String) (nowU : Int)
    (v nick : String) (d : ServerDetail) (li : ServerLiveInfo)
    (hli : d.serverLiveInfo = some li) :
    samplesFor .uefiEnabled (serverSamples month year nowU v nick d) =
      optSample li.uefi (fun b => ⟨.uefiEnabled, boolToVal b, [v]⟩) := by
  simp [serverSamples, liveSamples, ifaceSamples, diskSamples, hli]

theorem samplesFor_sS_latestQemu (month year : String) (nowU : Int)
    (v nick : String) (d : ServerDetail) (li : ServerLiveInfo)
    (hli : d.serverLiveInfo = some li) :
    samplesFor .latestQemu (serverSamples month year nowU v nick d) =
      optSample li.latestQemu (fun b => ⟨.latestQemu, boolToVal b, [v]⟩) := by
  simp [serverSamples, liveSamples, ifaceSamples, diskSamples, hli]

theorem samplesFor_sS_configChanged (month year : String) (nowU : Int)
    (v nick : String) (d : ServerDetail) (li : ServerLiveInfo)
    (hli : d.serverLiveInfo = some li) :
    samplesFor .configChanged (serverSamples month year nowU v nick d) =
      optSample li.configChanged (fun b => ⟨.configChanged, boolToVal b, [v]⟩) := by
  simp [serverSamples, liveSamples, ifaceSamples, diskSamples, hli]

theorem samplesFor_sS_memory (month year : String) (nowU : Int)
    (v nick : String) (d : ServerDetail) (li : ServerLiveInfo)
    (hli : d.serverLiveInfo = some li) :
    samplesFor .memory (serverSamples month year nowU v nick d) =
      optSample li.currentServerMemoryInMiB
        (fun x => ⟨.memory, x * 1024 * 1024, [v]⟩) := by
  simp [serverSamples, liveSamples, ifaceSamples, diskSamples, hli]

theorem samplesFor_sS_memoryMax (month year : String) (nowU : Int)
    (v nick : String) (d : ServerDetail) (li : ServerLiveInfo)
    (hli : d.serverLiveInfo = some li) :
    samplesFor .memoryMax (serverSamples month year nowU v nick d) =
      optSample li.maxServerMemoryInMiB
        (fun x => ⟨.memoryMax, x * 1024 * 1024, [v]⟩) := by
  simp [serverSamples, liveSamples, ifaceSamples, diskSamples, hli]

theorem samplesFor_sS_cpuCores (month year : String) (nowU : Int)
    (v nick : String) (d : ServerDetail) (li : ServerLiveInfo)
    (hli : d.serverLiveInfo = some li) :
    samplesFor .cpuCores (serverSamples month year nowU v nick d) =
      optSample li.cpuCount (fun c => ⟨.cpuCores, c, [v]⟩) := by
  simp [serverSamples, liveSamples, ifaceSamples, diskSamples, hli]

theorem samplesFor_sS_trafficIn (month year : String) (nowU : Int)
    (v nick : String) (d : ServerDetail) (li : ServerLiveInfo)
    (hli : d.serverLiveInfo = some li) :
    samplesFor .monthlyTrafficIn (serverSamples month year nowU v nick d) =
      [⟨.monthlyTrafficIn, (serverTraffic li).1, [v, month, year]⟩] := by
  simp [serverSamples, liveSamples, ifaceSamples, diskSamples, hli]

theorem samplesFor_sS_trafficOut (month year : String) (nowU : Int)
    (v nick : String) (d : ServerDetail) (li : ServerLiveInfo)
    (hli : d.serverLiveInfo = some li) :
    samplesFor .monthlyTrafficOut (serverSamples month year nowU v nick d) =
      [⟨.monthlyTrafficOut, (serverTraffic li).2, [v, month, year]⟩] := by
  simp [serverSamples, liveSamples, ifaceSamples, diskSamples, hli]

theorem samplesFor_sS_trafficTotal (month year : String) (nowU : Int)
    (v nick : String) (d : ServerDetail) (li : ServerLiveInfo)
    (hli : d.serverLiveInfo = some li) :
    samplesFor .monthlyTrafficTotal (serverSamples month year nowU v nick d) =
      [⟨.monthlyTrafficTotal, (serverTraffic li).1 + (serverTraffic li).2,
        [v, month, year]⟩] := by
  simp [serverSamples, liveSamples, ifaceSamples, diskSamples, hli]

end Metrics

namespace PkgMetrics

theorem emitIPs_spec (v : String) (iface : ServerInterface) (thr : Int)
    (ipType : String) :
    ∀ (ips seen : List String),
      ((emitIPs v iface thr ipType seen ips).1.map ipLabel).Nodup ∧
      (∀ x, x ∈ (emitIPs v iface thr ipType seen ips).1.map ipLabel ↔
        x ∈ ips ∧ x ∉ seen) ∧
      (∀ x, x ∈ (emitIPs v iface thr ipType seen ips).2 ↔ x ∈ seen ∨ x ∈ ips) := by
  intro ips
  induction ips with
  | nil => intro seen; simp [emitIPs]
  | cons ip rest ih =>
    intro seen
    by_cases hseen : ip ∈ seen
    · obtain ⟨h1, h2, h3⟩ := ih seen
      rw [emitIPs, if_pos hseen]
      refine ⟨h1, ?_, ?_⟩
      · intro x
        rw [h2]
        constructor
        · rintro ⟨hx, hxs⟩
          exact ⟨List.mem_cons_of_mem _ hx, hxs⟩
        · rintro ⟨hx, hxs⟩
          rcases List.mem_cons.1 hx with rfl | hx
          · exact absurd hseen hxs
          · exact ⟨hx, hxs⟩
      · intro x
        rw [h3]
        constructor
        · rintro (hx | hx)
          · exact Or.inl hx
          · exact Or.inr (List.mem_cons_of_mem _ hx)
        · rintro (hx | hx)
          · exact Or.inl hx
          · rcases List.mem_cons.1 hx with rfl | hx
            · exact Or.inl hseen
            · exact Or.inr hx
    · obtain ⟨h1, h2, h3⟩ := ih (ip :: seen)
      rw [emitIPs, if_neg hseen]
      simp only [List.map_cons]
      have hlbl : ipLabel
          ⟨.ifaceThrottled, thr,
            [v, iface.driver, iface.id, ip, ipType, iface.mac,
             iface.trafficThrottledMessage]⟩ = ip := rfl
      rw [hlbl]
      refine ⟨?_, ?_, ?_⟩
      · refine List.nodup_cons.2 ⟨?_, h1⟩
        intro hmem
        rcases (h2 ip).1 hmem with ⟨_, hns⟩
        exact hns (List.mem_cons_self ..)
      · intro x
        by_cases hx : x = ip
        · subst hx
          simp [hseen]
        · constructor
          · intro hmem
            rcases List.mem_cons.1 hmem with h | h
            · exact absurd h hx
            · rcases (h2 x).1 h with ⟨hr, hns⟩
              refine ⟨List.mem_cons_of_mem _ hr, fun hs => hns (List.mem_cons_of_mem _ hs)⟩
          · rintro ⟨hmem, hns⟩
            rcases List.mem_cons.1 hmem with rfl | hr
            · exact absurd rfl hx
            · refine List.mem_cons_of_mem _ ((h2 x).2 ⟨hr, ?_⟩)
              intro hs
              rcases List.mem_cons.1 hs with rfl | hs
              · exact hx rfl
              · exact hns hs
      · intro x
        rw [h3]
        constructor
        · rintro (hx | hx)
          · rcases List.mem_cons.1 hx with rfl | hx
            · exact Or.inr (List.mem_cons_self ..)
            · exact Or.inl hx
          · exact Or.inr (List.mem_cons_of_mem _ hx)
        · rintro (hx | hx)
          · exact Or.inl (List.mem_cons_of_mem _ hx)
          · rcases List.mem_cons.1 hx with rfl | hx
            · exact Or.inl (List.mem_cons_self ..)
            · exact Or.inr hx

end PkgMetrics
/-! C1 — deduplication of `interface_throttled` samples. -/

/-- C1 (counterexample): in the newer REST variant (src/metrics/metrics.go
lines 410-425) no deduplication is performed: an interface listing
"1.2.3.4" twice under IPv4 yields two `interface_throttled` samples with
identical label sets, so the samples do not contain each distinct
(ip, ip_type) pair exactly once. -/
theorem C1_counterexample :
    samplesFor .ifaceThrottled (Metrics.serverSamples "5" "2024" 0 "v1" "" exDetailDup) =
      [⟨.ifaceThrottled, 0, ["v1", "virtio", "", "1.2.3.4", "ipv4", "aa:bb", ""]⟩,
       ⟨.ifaceThrottled, 0, ["v1", "virtio", "", "1.2.3.4", "ipv4", "aa:bb", ""]⟩] := rfl

/-- C1 (amended): only the SOAP variant deduplicates, and it does so keyed on
the bare literal address, shared across the IPv4 and IPv6 passes of one
interface: the emitted `interface_throttled` samples of an interface carry
pairwise-distinct `ip` labels, and an address appears (exactly once) iff it
occurs in the interface's IPv4 or IPv6 list.  The newer REST variant performs
no deduplication: it emits exactly one sample per address-list entry. -/
theorem C1_dedup :
    (∀ (v : String) (iface : PkgMetrics.ServerInterface),
      ((PkgMetrics.ifaceThrottledSamples v iface).map ipLabel).Nodup ∧
      (∀ ip, ip ∈ (PkgMetrics.ifaceThrottledSamples v iface).map ipLabel ↔
        ip ∈ iface.ipv4IP ++ iface.ipv6IP)) ∧
    (∀ (v : String) (ifc : Metrics.Iface),
      (samplesFor .ifaceThrottled (Metrics.ifaceSamples v ifc)).length =
        (ifc.ipv4Addresses.getD []).length +
        (ifc.ipv6LinkLocalAddresses.getD []).length +
        (ifc.ipv6NetworkPfxs.getD []).length) := by
  constructor
  · intro v iface
    simp only [PkgMetrics.ifaceThrottledSamples]
    obtain ⟨n4, m4, s4⟩ :=
      PkgMetrics.emitIPs_spec v iface (if iface.trafficThrottled then 1 else 0)
        "ipv4" iface.ipv4IP []
    obtain ⟨n6, m6, s6⟩ :=
      PkgMetrics.emitIPs_spec v iface (if iface.trafficThrottled then 1 else 0)
        "ipv6" iface.ipv6IP
        (PkgMetrics.emitIPs v iface (if iface.trafficThrottled then 1 else 0)
          "ipv4" [] iface.ipv4IP).2
    rw [List.map_append]
    constructor
    · refine (List.nodup_append).2 ⟨n4, n6, ?_⟩
      intro x hx4 hx6
      have hx4' : x ∈ iface.ipv4IP := by simpa using (m4 x).1 hx4
      have hx6' := (m6 x).1 hx6
      exact hx6'.2 ((s4 x).2 (Or.inr hx4'))
    · intro ip
      rw [List.mem_append, List.mem_append, m4, m6]
      constructor
      · rintro (⟨h, _⟩ | ⟨h, _⟩)
        · exact Or.inl h
        · exact Or.inr h
      · rintro (h | h)
        · exact Or.inl ⟨h, List.not_mem_nil ip⟩
        · by_cases h4 : ip ∈ iface.ipv4IP
          · exact Or.inl ⟨h4, List.not_mem_nil ip⟩
          · refine Or.inr ⟨h, fun hmem => ?_⟩
            rcases (s4 ip).1 hmem with hc | hc
            · exact List.not_mem_nil ip hc
            · exact h4 hc
  · intro v ifc
    simp [Metrics.ifaceSamples, Metrics.optLoop_singleton, Metrics.optMapLoop]
    cases ifc.ipv4Addresses <;> cases ifc.ipv6LinkLocalAddresses <;>
      cases ifc.ipv6NetworkPfxs <;>
      simp [Metrics.samplesFor_map_of_metric] <;> omega

/-! C7 — uptime string parsing. -/

/-- C7 (counterexample): `"1 day 1 hour"` does not parse: the `" hour "`
replacement requires a trailing space, so the duration parser receives
`"1d1 hour"` and fails; in particular the result is not 90000 seconds. -/
theorem C7_counterexample :
    PkgMetrics.parseUptimeString "1 day 1 hour" = none ∧
    PkgMetrics.parseUptimeString "1 day 1 hour" ≠ some (90000 * 1000000000) :=
  ⟨rfl, fun h => by simp [show PkgMetrics.parseUptimeString "1 day 1 hour" = none from rfl] at h⟩

/-- C7 (amended): `"3 days 4 hours 5 minutes"` parses to exactly
3×86400 + 4×3600 + 5×60 seconds; `"1 day 1 hour"` fails to parse (singular
`day`/`hour` words are only rewritten when followed by a space, i.e. when they
are not the final token). -/
theorem C7_parse_uptime :
    PkgMetrics.parseUptimeString "3 days 4 hours 5 minutes" =
      some ((3 * 86400 + 4 * 3600 + 5 * 60) * 1000000000) ∧
    PkgMetrics.parseUptimeString "1 day 1 hour" = none :=
  ⟨rfl, rfl⟩

/-! C8 — behaviour on uptime parse failure. -/

/-- C8 (counterexample): for a server whose uptime string fails to parse, the
`server_start_time` sample is not omitted: Collect emits it anyway, valued at
the scrape time (the zero duration returned with the error is used). -/
theorem C8_counterexample :
    PkgMetrics.parseUptimeString exInfoBad.uptime = none ∧
    samplesFor .serverStartTime (PkgMetrics.serverSamples 1700000000 "v1" exInfoBad) =
      [⟨.serverStartTime, 1700000000, ["v1"]⟩] :=
  ⟨rfl, rfl⟩

/-- C8 (amended): when `parseUptimeString` fails, Collect logs the error and
still emits the `server_start_time` sample, valued at the scrape time
(`now - 0`); the loop goes on with the remaining servers (one server's
samples merely prefix the rest of the loop's output). -/
theorem C8_start_time_on_parse_failure (nowUnix : Int) (v : String)
    (info : PkgMetrics.VServerInformation)
    (h : PkgMetrics.parseUptimeString info.uptime = none) :
    (⟨.serverStartTime, nowUnix, [v]⟩ : Sample) ∈
      PkgMetrics.serverSamples nowUnix v info ∧
    (∀ (c : PkgMetrics.WSEndUser) (rest : List String)
       (resp : PkgMetrics.GetVServerInformationResponse) (tail : List Sample),
       c.getVServerInformation v = some resp →
       PkgMetrics.collectServers c nowUnix rest = some tail →
       PkgMetrics.collectServers c nowUnix (v :: rest) =
         some (PkgMetrics.serverSamples nowUnix v resp.return_ ++ tail)) := by
  constructor
  · simp [PkgMetrics.serverSamples, h]
  · intro c rest resp tail hc ht
    simp [PkgMetrics.collectServers, hc, ht]

/-- C8 (witness): the amended statement at a concrete unparseable uptime. -/
theorem C8_witness :
    (⟨.serverStartTime, (1700000000 : Int), ["v1"]⟩ : Sample) ∈
      PkgMetrics.serverSamples 1700000000 "v1" exInfoBad :=
  (C8_start_time_on_parse_failure 1700000000 "v1" exInfoBad rfl).1

/-! C2 — boolean flags. -/

/-- C2 (counterexample): with the parent structures present but all six
boolean fields absent, none of the six gauges is emitted — the samples are
absent, not 0-valued (the `!= nil` guards at src/metrics/metrics.go lines
277, 293, 317, 325, 333, 341 skip the emission). -/
theorem C2_counterexample :
    exDetailC2.serverLiveInfo ≠ none ∧
    exDetailC2.disabled = none ∧
    samplesFor .disabled (Metrics.serverSamples "5" "2024" 0 "v" "" exDetailC2) = [] ∧
    samplesFor .autostartEnabled (Metrics.serverSamples "5" "2024" 0 "v" "" exDetailC2) = [] ∧
    samplesFor .uefiEnabled (Metrics.serverSamples "5" "2024" 0 "v" "" exDetailC2) = [] ∧
    samplesFor .latestQemu (Metrics.serverSamples "5" "2024" 0 "v" "" exDetailC2) = [] ∧
    samplesFor .configChanged (Metrics.serverSamples "5" "2024" 0 "v" "" exDetailC2) = [] ∧
    samplesFor .snapshotAllowed (Metrics.serverSamples "5" "2024" 0 "v" "" exDetailC2) = [] :=
  ⟨by simp [exDetailC2], rfl, rfl, rfl, rfl, rfl, rfl, rfl⟩

/-- C2 (amended): for each of the six boolean flags, the sample is emitted
exactly when the field is present (absence yields no sample, not a 0-valued
one); when present, false maps to 0 and true to 1 (`boolToVal`). -/
theorem C2_bool_flag_emission (month year : String) (nowU : Int) (v nick : String)
    (d : Metrics.ServerDetail) (li : Metrics.ServerLiveInfo)
    (hli : d.serverLiveInfo = some li) :
    samplesFor .disabled (Metrics.serverSamples month year nowU v nick d) =
      Metrics.optSample d.disabled
        (fun b => ⟨.disabled, Metrics.boolToVal b, [v]⟩) ∧
    samplesFor .snapshotAllowed (Metrics.serverSamples month year nowU v nick d) =
      Metrics.optSample d.snapshotAllowed
        (fun b => ⟨.snapshotAllowed, Metrics.boolToVal b, [v]⟩) ∧
    samplesFor .autostartEnabled (Metrics.serverSamples month year nowU v nick d) =
      Metrics.optSample li.autostart
        (fun b => ⟨.autostartEnabled, Metrics.boolToVal b, [v]⟩) ∧
    samplesFor .uefiEnabled (Metrics.serverSamples month year nowU v nick d) =
      Metrics.optSample li.uefi
        (fun b => ⟨.uefiEnabled, Metrics.boolToVal b, [v]⟩) ∧
    samplesFor .latestQemu (Metrics.serverSamples month year nowU v nick d) =
      Metrics.optSample li.latestQemu
        (fun b => ⟨.latestQemu, Metrics.boolToVal b, [v]⟩) ∧
    samplesFor .configChanged (Metrics.serverSamples month year nowU v nick d) =
      Metrics.optSample li.configChanged
        (fun b => ⟨.configChanged, Metrics.boolToVal b, [v]⟩) :=
  ⟨Metrics.samplesFor_sS_disabled month year nowU v nick d,
   Metrics.samplesFor_sS_snapshotAllowed month year nowU v nick d,
   Metrics.samplesFor_sS_autostart month year nowU v nick d li hli,
   Metrics.samplesFor_sS_uefi month year nowU v nick d li hli,
   Metrics.samplesFor_sS_latestQemu month year nowU v nick d li hli,
   Metrics.samplesFor_sS_configChanged month year nowU v nick d li hli⟩

/-- C2 (witness): the amended statement at a concrete mixed payload: the
present `disabled := true` flag yields a 1-valued sample and the present
`autostart := false` flag yields a 0-valued sample. -/
theorem C2_witness :
    samplesFor .disabled (Metrics.serverSamples "5" "2024" 0 "v" "" exDetailMix) =
      Metrics.optSample exDetailMix.disabled
        (fun b => ⟨.disabled, Metrics.boolToVal b, ["v"]⟩) ∧
    samplesFor .autostartEnabled (Metrics.serverSamples "5" "2024" 0 "v" "" exDetailMix) =
      Metrics.optSample exLiMix.autostart
        (fun b => ⟨.autostartEnabled, Metrics.boolToVal b, ["v"]⟩) :=
  ⟨(C2_bool_flag_emission "5" "2024" 0 "v" "" exDetailMix exLiMix rfl).1,
   (C2_bool_flag_emission "5" "2024" 0 "v" "" exDetailMix exLiMix rfl).2.2.1⟩

/-! C3 — optional numeric fields. -/

/-- C3 (counterexample): a disk whose `CapacityInMiB`/`AllocationInMiB`
fields are absent still yields `disk_capacity_bytes`/`disk_used_bytes`
samples, valued 0 (src/metrics/metrics.go lines 440-450 emit
unconditionally, substituting 0) — contradicting "no sample with value zero
is emitted" for a missing optional numeric field. -/
theorem C3_counterexample :
    exDiskNoCap.capacityInMiB = none ∧
    exDiskNoCap.allocationInMiB = none ∧
    samplesFor .diskCapacity (Metrics.serverSamples "5" "2024" 0 "v" "" exDetailC3) =
      [⟨.diskCapacity, 0, ["v", "scsi", "vda"]⟩] ∧
    samplesFor .diskUsed (Metrics.serverSamples "5" "2024" 0 "v" "" exDetailC3) =
      [⟨.diskUsed, 0, ["v", "scsi", "vda"]⟩] :=
  ⟨rfl, rfl, rfl, rfl⟩

/-- C3 (amended): for max CPU count, available disk space, current/max
memory, CPU count and snapshot count an absent field yields no sample and a
present field yields exactly one sample (no error in either case); the disk
capacity/allocation gauges are the exception: one sample per listed disk is
always emitted, with 0 substituted when the MiB field is absent. -/
theorem C3_numeric_absent (month year : String) (nowU : Int) (v nick : String)
    (d : Metrics.ServerDetail) (li : Metrics.ServerLiveInfo)
    (hli : d.serverLiveInfo = some li) :
    samplesFor .cpuMaxCount (Metrics.serverSamples month year nowU v nick d) =
      Metrics.optSample d.maxCpuCount (fun c => ⟨.cpuMaxCount, c, [v]⟩) ∧
    samplesFor .disksAvailableSpace (Metrics.serverSamples month year nowU v nick d) =
      Metrics.optSample d.disksAvailableSpaceInMiB
        (fun x => ⟨.disksAvailableSpace, x * 1024 * 1024, [v]⟩) ∧
    samplesFor .snapshotCount (Metrics.serverSamples month year nowU v nick d) =
      Metrics.optSample d.snapshotCount (fun c => ⟨.snapshotCount, c, [v]⟩) ∧
    samplesFor .cpuCores (Metrics.serverSamples month year nowU v nick d) =
      Metrics.optSample li.cpuCount (fun c => ⟨.cpuCores, c, [v]⟩) ∧
    samplesFor .memory (Metrics.serverSamples month year nowU v nick d) =
      Metrics.optSample li.currentServerMemoryInMiB
        (fun x => ⟨.memory, x * 1024 * 1024, [v]⟩) ∧
    samplesFor .memoryMax (Metrics.serverSamples month year nowU v nick d) =
      Metrics.optSample li.maxServerMemoryInMiB
        (fun x => ⟨.memoryMax, x * 1024 * 1024, [v]⟩) ∧
    (∀ ds, li.disks = some ds →
      ∀ disk ∈ ds, disk.capacityInMiB = none →
        (⟨.diskCapacity, 0, [v, disk.driver.getD "", disk.dev.getD ""]⟩ : Sample) ∈
          Metrics.serverSamples month year nowU v nick d) ∧
    (∀ ds, li.disks = some ds →
      ∀ disk ∈ ds, disk.allocationInMiB = none →
        (⟨.diskUsed, 0, [v, disk.driver.getD "", disk.dev.getD ""]⟩ : Sample) ∈
          Metrics.serverSamples month year nowU v nick d) := by
  refine ⟨Metrics.samplesFor_sS_cpuMaxCount month year nowU v nick d,
    Metrics.samplesFor_sS_disksAvailableSpace month year nowU v nick d,
    Metrics.samplesFor_sS_snapshotCount month year nowU v nick d,
    Metrics.samplesFor_sS_cpuCores month year nowU v nick d li hli,
    Metrics.samplesFor_sS_memory month year nowU v nick d li hli,
    Metrics.samplesFor_sS_memoryMax month year nowU v nick d li hli, ?_, ?_⟩
  · intro ds hds disk hdisk hcap
    have hx : (⟨.diskCapacity, 0, [v, disk.driver.getD "", disk.dev.getD ""]⟩ : Sample) ∈
        Metrics.diskSamples v li disk := by
      simp [Metrics.diskSamples, hcap]
    have hmem : (⟨.diskCapacity, 0, [v, disk.driver.getD "", disk.dev.getD ""]⟩ : Sample) ∈
        Metrics.optLoop li.disks (Metrics.diskSamples v li) := by
      rw [hds, Metrics.optLoop_some]
      exact List.mem_flatMap.2 ⟨disk, hdisk, hx⟩
    simp only [Metrics.serverSamples, Metrics.liveSamples, hli, List.mem_append]
    tauto
  · intro ds hds disk hdisk halloc
    have hx : (⟨.diskUsed, 0, [v, disk.driver.getD "", disk.dev.getD ""]⟩ : Sample) ∈
        Metrics.diskSamples v li disk := by
      simp [Metrics.diskSamples, halloc]
    have hmem : (⟨.diskUsed, 0, [v, disk.driver.getD "", disk.dev.getD ""]⟩ : Sample) ∈
        Metrics.optLoop li.disks (Metrics.diskSamples v li) := by
      rw [hds, Metrics.optLoop_some]
      exact List.mem_flatMap.2 ⟨disk, hdisk, hx⟩
    simp only [Metrics.serverSamples, Metrics.liveSamples, hli, List.mem_append]
    tauto

/-- C3 (witness): the amended statement at `exDetailC3` (present live info,
one disk with absent capacity/allocation). -/
theorem C3_witness :
    samplesFor .cpuMaxCount (Metrics.serverSamples "5" "2024" 0 "v" "" exDetailC3) =
      Metrics.optSample exDetailC3.maxCpuCount (fun c => ⟨.cpuMaxCount, c, ["v"]⟩) ∧
    (⟨.diskCapacity, 0, ["v", "scsi", "vda"]⟩ : Sample) ∈
      Metrics.serverSamples "5" "2024" 0 "v" "" exDetailC3 :=
  ⟨(C3_numeric_absent "5" "2024" 0 "v" "" exDetailC3 _ rfl).1,
   (C3_numeric_absent "5" "2024" 0 "v" "" exDetailC3 _ rfl).2.2.2.2.2.2.1
     [exDiskNoCap] rfl exDiskNoCap (List.mem_cons_self ..) rfl⟩

/-! C4 and C5 — failure handling around the server listing and per-server
detail calls. -/

theorem mem_pingSamples (c : Metrics.Client) :
    ∀ s ∈ Metrics.pingSamples c, s.metric = .apiUp := by
  intro s hs
  simp [Metrics.pingSamples] at hs
  rw [hs]

theorem mem_maintenanceSamples (c : Metrics.Client) :
    ∀ s ∈ Metrics.maintenanceSamples c,
      s.metric = .maintenanceStart ∨ s.metric = .maintenanceFinish := by
  intro s hs
  unfold Metrics.maintenanceSamples at hs
  cases hm : c.maintenance with
  | transportError => rw [hm] at hs; simp at hs
  | response j =>
    rw [hm] at hs
    cases j with
    | none => simp at hs
    | some m =>
      cases hsa : m.startAt <;> cases hfa : m.finishAt <;>
        simp [hsa, hfa, Metrics.optSample] at hs <;> aesop

/-- C4 (amended, REST part): in the newer variant, when the server-listing
call returns a transport error or a response without a success payload,
Collect emits exactly the api_up and maintenance samples gathered before the
failure point and nothing else: no per-server metric, no task metric, and the
function returns normally (it is total). -/
theorem C4_listing_failure (c : Metrics.Client) (now : Metrics.TimeInfo)
    (h : c.servers = .transportError ∨ c.servers = .response none) :
    Metrics.Collect c now = Metrics.pingSamples c ++ Metrics.maintenanceSamples c ∧
    ∀ s ∈ Metrics.Collect c now,
      s.metric = .apiUp ∨ s.metric = .maintenanceStart ∨ s.metric = .maintenanceFinish := by
  have hC : Metrics.Collect c now =
      Metrics.pingSamples c ++ Metrics.maintenanceSamples c := by
    rcases h with h | h <;> simp [Metrics.Collect, h]
  refine ⟨hC, ?_⟩
  intro s hs
  rw [hC] at hs
  rcases List.mem_append.1 hs with hs | hs
  · exact Or.inl (mem_pingSamples c s hs)
  · exact Or.inr (mem_maintenanceSamples c s hs)

/-- C4 (witness): the amended statement at a concrete all-failing client. -/
theorem C4_witness :
    Metrics.Collect exClientDown exNow =
      Metrics.pingSamples exClientDown ++ Metrics.maintenanceSamples exClientDown ∧
    ∀ s ∈ Metrics.Collect exClientDown exNow,
      s.metric = .apiUp ∨ s.metric = .maintenanceStart ∨ s.metric = .maintenanceFinish :=
  C4_listing_failure exClientDown exNow (Or.inl rfl)

/-- C4 (counterexample): in the SOAP variant a listing transport error is
only logged, after which `genericResponse.Return_` is dereferenced; the
generated client returned a nil response alongside the error, so Collect
panics (modelled `none`) instead of terminating normally. -/
theorem C4_counterexample : PkgMetrics.Collect exSoapDown 0 = none := rfl

/-- C5 (amended, REST part): with a successful listing, Collect is the
prefix samples followed by the per-server blocks in listing order; a server
whose detail call fails (transport error or missing payload) contributes the
empty block, every other server contributes its full sample set, and each
such block is contained in the final output. -/
theorem C5_per_server_isolation (c : Metrics.Client) (now : Metrics.TimeInfo)
    (l : List Metrics.ServerItem) (hl : c.servers = .response (some l)) :
    Metrics.Collect c now =
      Metrics.pingSamples c ++ Metrics.maintenanceSamples c ++
        (Metrics.taskSamples c ++ l.flatMap (Metrics.serverBlock c now)) ∧
    (∀ s ∈ l,
      (c.serverDetail s.id = .transportError ∨ c.serverDetail s.id = .response none) →
      Metrics.serverBlock c now s = []) ∧
    (∀ s ∈ l, ∀ d, c.serverDetail s.id = .response (some d) →
      Metrics.serverBlock c now s =
        Metrics.serverSamples (toString now.month) (toString now.year) now.unix
          (s.name.getD "") (s.nickname.getD "") d) ∧
    (∀ s ∈ l, ∀ x ∈ Metrics.serverBlock c now s, x ∈ Metrics.Collect c now) := by
  have hC : Metrics.Collect c now =
      Metrics.pingSamples c ++ Metrics.maintenanceSamples c ++
        (Metrics.taskSamples c ++ l.flatMap (Metrics.serverBlock c now)) := by
    simp [Metrics.Collect, hl]
  refine ⟨hC, ?_, ?_, ?_⟩
  · intro s _ h
    rcases h with h | h <;> simp [Metrics.serverBlock, h]
  · intro s _ d h
    simp [Metrics.serverBlock, h]
  · intro s hsl x hx
    rw [hC]
    refine List.mem_append.2 (Or.inr (List.mem_append.2 (Or.inr ?_)))
    exact List.mem_flatMap.2 ⟨s, hsl, hx⟩

/-- C5 (witness): at the concrete client, the failed first server
contributes no samples while the second still yields its full block. -/
theorem C5_witness :
    Metrics.serverBlock exClientC5 exNow exItemA = [] ∧
    Metrics.serverBlock exClientC5 exNow exItemB =
      Metrics.serverSamples (toString exNow.month) (toString exNow.year) exNow.unix
        (exItemB.name.getD "") (exItemB.nickname.getD "") noDetail :=
  ⟨(C5_per_server_isolation exClientC5 exNow [exItemA, exItemB] rfl).2.1 exItemA
      (List.mem_cons_self ..) (Or.inl rfl),
   (C5_per_server_isolation exClientC5 exNow [exItemA, exItemB] rfl).2.2.1 exItemB
      (by simp) noDetail rfl⟩

/-- C5 (counterexample): in the SOAP variant a failing detail call is only
logged, there is no `continue`, and `infoResponse.Return_` is dereferenced on
the nil response: the scrape panics (modelled `none`), so the sibling server
"b" gets no metrics at all. -/
theorem C5_counterexample :
    exSoapPartial.getVServerInformation "a" = none ∧
    exSoapPartial.getVServerInformation "b" ≠ none ∧
    PkgMetrics.Collect exSoapPartial 0 = none :=
  ⟨rfl, by simp [exSoapPartial], rfl⟩

/-! C6 — monthly traffic sums (newer API variant). -/

/-- C6: in the newer variant, for a server whose live info and interface list
are present, the monthly in/out gauges carry the sums of the per-interface
RX/TX monthly MiB counters (absent counters counting 0) converted to bytes,
and the total gauge, under the same (vserver, month, year) label triple,
carries exactly the sum of the in and out values. -/
theorem C6_traffic_sums (month year : String) (nowU : Int) (v nick : String)
    (d : Metrics.ServerDetail) (li : Metrics.ServerLiveInfo)
    (hli : d.serverLiveInfo = some li) (ifs : List Metrics.Iface)
    (hifs : li.interfaces = some ifs) :
    samplesFor .monthlyTrafficIn (Metrics.serverSamples month year nowU v nick d) =
      [⟨.monthlyTrafficIn,
        (ifs.map (fun i => i.rxMonthlyInMiB.getD 0)).sum * 1024 * 1024,
        [v, month, year]⟩] ∧
    samplesFor .monthlyTrafficOut (Metrics.serverSamples month year nowU v nick d) =
      [⟨.monthlyTrafficOut,
        (ifs.map (fun i => i.txMonthlyInMiB.getD 0)).sum * 1024 * 1024,
        [v, month, year]⟩] ∧
    samplesFor .monthlyTrafficTotal (Metrics.serverSamples month year nowU v nick d) =
      [⟨.monthlyTrafficTotal,
        (ifs.map (fun i => i.rxMonthlyInMiB.getD 0)).sum * 1024 * 1024 +
          (ifs.map (fun i => i.txMonthlyInMiB.getD 0)).sum * 1024 * 1024,
        [v, month, year]⟩] := by
  have hst : Metrics.serverTraffic li =
      ((ifs.map (fun i => i.rxMonthlyInMiB.getD 0)).sum * 1024 * 1024,
       (ifs.map (fun i => i.txMonthlyInMiB.getD 0)).sum * 1024 * 1024) := by
    simp [Metrics.serverTraffic, hifs, Metrics.trafficTotals_eq]
  refine ⟨?_, ?_, ?_⟩
  · rw [Metrics.samplesFor_sS_trafficIn month year nowU v nick d li hli, hst]
  · rw [Metrics.samplesFor_sS_trafficOut month year nowU v nick d li hli, hst]
  · rw [Metrics.samplesFor_sS_trafficTotal month year nowU v nick d li hli, hst]

/-- C6 (witness): the statement at a concrete two-interface payload. -/
theorem C6_witness :
    samplesFor .monthlyTrafficIn (Metrics.serverSamples "5" "2024" 0 "v" "" exDetailC6) =
      [⟨.monthlyTrafficIn,
        (([exIfaceTraf1, exIfaceTraf2].map (fun i => i.rxMonthlyInMiB.getD 0)).sum)
          * 1024 * 1024,
        ["v", "5", "2024"]⟩] ∧
    samplesFor .monthlyTrafficTotal (Metrics.serverSamples "5" "2024" 0 "v" "" exDetailC6) =
      [⟨.monthlyTrafficTotal,
        (([exIfaceTraf1, exIfaceTraf2].map (fun i => i.rxMonthlyInMiB.getD 0)).sum)
            * 1024 * 1024 +
          (([exIfaceTraf1, exIfaceTraf2].map (fun i => i.txMonthlyInMiB.getD 0)).sum)
            * 1024 * 1024,
        ["v", "5", "2024"]⟩] :=
  ⟨(C6_traffic_sums "5" "2024" 0 "v" "" exDetailC6 _ rfl [exIfaceTraf1, exIfaceTraf2] rfl).1,
   (C6_traffic_sums "5" "2024" 0 "v" "" exDetailC6 _ rfl [exIfaceTraf1, exIfaceTraf2] rfl).2.2⟩

/-! C9 — Describe is static. -/

/-- C9: both variants' Describe return the same fixed, non-empty descriptor
list for every client (in particular for one whose calls all fail), of size
29 in the newer variant and 13 in the SOAP variant; Describe never consults
the client (the result does not depend on it), and since the embedding is
pure, running Collect cannot change it. -/
theorem C9_describe_static :
    (∀ c₁ c₂ : Metrics.Client,
      Metrics.Describe (Metrics.NewScpCollector c₁) =
        Metrics.Describe (Metrics.NewScpCollector c₂)) ∧
    (∀ c : Metrics.Client,
      (Metrics.Describe (Metrics.NewScpCollector c)).length = 29 ∧
      Metrics.Describe (Metrics.NewScpCollector c) ≠ []) ∧
    (∀ (s₁ s₂ : PkgMetrics.WSEndUser) (l₁ p₁ l₂ p₂ : String),
      PkgMetrics.Describe (PkgMetrics.NewScpCollector s₁ l₁ p₁) =
        PkgMetrics.Describe (PkgMetrics.NewScpCollector s₂ l₂ p₂)) ∧
    (∀ (s : PkgMetrics.WSEndUser) (l p : String),
      (PkgMetrics.Describe (PkgMetrics.NewScpCollector s l p)).length = 13 ∧
      PkgMetrics.Describe (PkgMetrics.NewScpCollector s l p) ≠ []) := by
  refine ⟨fun c₁ c₂ => rfl, fun c => ⟨rfl, ?_⟩, fun s₁ s₂ l₁ p₁ l₂ p₂ => rfl,
    fun s l p => ⟨rfl, ?_⟩⟩
  · exact fun h => List.cons_ne_nil _ _ h
  · exact fun h => List.cons_ne_nil _ _ h

/-! C10 — traffic gauges always emitted with wall-clock month/year labels. -/

/-- C10: in the newer variant, for every server whose detail fetch succeeds
and whose live info is present, the three monthly-traffic gauges are each
emitted exactly once, inside the scrape output, with month and year labels
rendered from the wall clock captured at the start of the scrape (for every
client and response alike — hence from no field of the response); the values
are 0 when the interface list is absent or when no interface carries an
RX/TX counter. -/
theorem C10_traffic_always (c : Metrics.Client) (now : Metrics.TimeInfo)
    (l : List Metrics.ServerItem) (s : Metrics.ServerItem)
    (d : Metrics.ServerDetail) (li : Metrics.ServerLiveInfo)
    (hl : c.servers = .response (some l)) (hs : s ∈ l)
    (hd : c.serverDetail s.id = .response (some d))
    (hli : d.serverLiveInfo = some li) :
    samplesFor .monthlyTrafficIn (Metrics.serverBlock c now s) =
      [⟨.monthlyTrafficIn, (Metrics.serverTraffic li).1,
        [s.name.getD "", toString now.month, toString now.year]⟩] ∧
    samplesFor .monthlyTrafficOut (Metrics.serverBlock c now s) =
      [⟨.monthlyTrafficOut, (Metrics.serverTraffic li).2,
        [s.name.getD "", toString now.month, toString now.year]⟩] ∧
    samplesFor .monthlyTrafficTotal (Metrics.serverBlock c now s) =
      [⟨.monthlyTrafficTotal, (Metrics.serverTraffic li).1 + (Metrics.serverTraffic li).2,
        [s.name.getD "", toString now.month, toString now.year]⟩] ∧
    (∀ x ∈ Metrics.serverBlock c now s, x ∈ Metrics.Collect c now) ∧
    (li.interfaces = none → Metrics.serverTraffic li = (0, 0)) ∧
    (∀ ifs, li.interfaces = some ifs →
      (∀ i ∈ ifs, i.rxMonthlyInMiB = none ∧ i.txMonthlyInMiB = none) →
      Metrics.serverTraffic li = (0, 0)) := by
  have hb : Metrics.serverBlock c now s =
      Metrics.serverSamples (toString now.month) (toString now.year) now.unix
        (s.name.getD "") (s.nickname.getD "") d := by
    simp [Metrics.serverBlock, hd]
  refine ⟨?_, ?_, ?_, ?_, ?_, ?_⟩
  · rw [hb, Metrics.samplesFor_sS_trafficIn _ _ _ _ _ _ _ hli]
  · rw [hb, Metrics.samplesFor_sS_trafficOut _ _ _ _ _ _ _ hli]
  · rw [hb, Metrics.samplesFor_sS_trafficTotal _ _ _ _ _ _ _ hli]
  · intro x hx
    simp only [Metrics.Collect, hl]
    exact List.mem_append.2 (Or.inr (List.mem_append.2 (Or.inr
      (List.mem_flatMap.2 ⟨s, hs, hx⟩))))
  · intro hnone
    simp [Metrics.serverTraffic, hnone]
  · intro ifs hifs hall
    have h1 : (ifs.map (fun i => i.rxMonthlyInMiB.getD 0)).sum = 0 := by
      apply List.sum_eq_zero
      intro x hx
      rcases List.mem_map.1 hx with ⟨i, hi, rfl⟩
      rw [(hall i hi).1]
      rfl
    have h2 : (ifs.map (fun i => i.txMonthlyInMiB.getD 0)).sum = 0 := by
      apply List.sum_eq_zero
      intro x hx
      rcases List.mem_map.1 hx with ⟨i, hi, rfl⟩
      rw [(hall i hi).2]
      rfl
    simp [Metrics.serverTraffic, hifs, Metrics.trafficTotals_eq, h1, h2]

/-- C10 (witness): the statement at the concrete client; the interface list
is absent, so the emitted traffic values are 0. -/
theorem C10_witness :
    samplesFor .monthlyTrafficIn (Metrics.serverBlock exClientC10 exNow exItemC10) =
      [⟨.monthlyTrafficIn, (Metrics.serverTraffic noLive).1,
        [exItemC10.name.getD "", toString exNow.month, toString exNow.year]⟩] ∧
    Metrics.serverTraffic noLive = (0, 0) :=
  ⟨(C10_traffic_always exClientC10 exNow [exItemC10] exItemC10 exDetailC2 noLive
      rfl (List.mem_cons_self ..) rfl rfl).1,
   (C10_traffic_always exClientC10 exNow [exItemC10] exItemC10 exDetailC2 noLive
      rfl (List.mem_cons_self ..) rfl rfl).2.2.2.2.1 rfl⟩

